import Mathlib

/-!
Verification development for the `auth-server.ts` entry point of
shdennlin/google-calendar-mcp.

The file embeds, as executable Lean definitions:

* `parseAuthServerArgs` (the CLI argument loop of `parseAuthServerArgs`),
* `runAuthServer` (the orchestrator body, parameterised by the outcome of the
  external OAuth-client construction and of `AuthServer.start`),
* the post-start waiting phase (the 1-second completion poll and the SIGINT
  handler) as a small transition system on `WaitState`,
* the `AuthServer` state machine itself, which lives outside this source tree
  and is therefore modelled from the specification.

Theorems about these definitions settle the frozen claims.
-/

/-- Embedding of the JavaScript string method `s.startsWith(p)`:
`p` is a prefix of `s`, compared character by character. -/
def strStartsWith (s p : String) : Bool := p.data.isPrefixOf s.data

/-- The literal command-line flag recognised by `parseAuthServerArgs`. -/
def credFlag : String := "--credentials-file"

/-- Outcome of the argument parse: either the parsed optional credentials
path, or a `process.exit` with a code after printing a message. -/
inductive ParseResult where
  | ok (credentialsPath : Option String)
  | exitWith (code : Nat) (msg : String)
deriving DecidableEq

/-- The error message `Option --credentials-file requires a value` printed
when the flag has no usable value. -/
def requiresValueMsg : String := "Option --credentials-file requires a value"

/-- The argument loop of `parseAuthServerArgs` (auth-server.ts lines 10-23):
scan the arguments; on `--credentials-file` take the next argument as the
value unless it is missing or starts with `--`, in which case print the
error and exit 1; every other argument is skipped. The accumulator holds
the most recently parsed value. -/
def parseLoop : List String → Option String → ParseResult
  | [], acc => .ok acc
  | a :: rest, acc =>
    if a = credFlag then
      match rest with
      | [] => .exitWith 1 ("Option " ++ a ++ " requires a value")
      | v :: rest2 =>
        if strStartsWith v "--" then .exitWith 1 ("Option " ++ a ++ " requires a value")
        else parseLoop rest2 (some v)
    else parseLoop rest acc

/-- `parseAuthServerArgs` (auth-server.ts lines 6-26) on an argument list. -/
def parseAuthServerArgs (args : List String) : ParseResult :=
  parseLoop args none

/-- Observable actions of the orchestrating process, in program order. -/
inductive OrchEvent where
  | stderrWrite (s : String)
  | setCredPath (p : String)
  | clientInit
  | startCall (openBrowser : Bool)
  | stopCall
  | pollStart
  | pollClear
  | exitCall (code : Nat)
deriving DecidableEq

/-- Where `runAuthServer` ends up: a `process.exit` with a code, or waiting
for the browser callback with the poll and the SIGINT handler installed. -/
inductive OrchOutcome where
  | exited (code : Nat)
  | waiting
deriving DecidableEq

/-- The behaviour of the external `AuthServer` instance as the orchestrator
sees it: what `start(true)` does (return a boolean or throw), and the value
of `authCompletedSuccessfully` once `start` has returned. -/
structure AuthServerBehavior where
  startResult : Except String Bool
  flagAfterStart : Bool

/-- Failure message of auth-server.ts line 43; it names the port range. -/
def failMsg : String :=
  "Authentication failed. Could not start server or validate existing tokens. Check port availability (3000-3004) and try again.\n"

/-- Success message of auth-server.ts line 47. -/
def successMsg : String := "Authentication successful.\n"

/-- Waiting message of auth-server.ts line 52. -/
def startedMsg : String :=
  "Authentication server started. Please complete the authentication in your browser...\n"

/-- Success message of the poll callback, auth-server.ts line 59. -/
def pollSuccessMsg : String := "Authentication successful. Server stopped.\n"

/-- The catch-block message of auth-server.ts line 74. -/
def authErrorMsg (e : String) : String := "Authentication error: " ++ e ++ "\n"

/-- The body of `runAuthServer` (auth-server.ts lines 29-78), parameterised
by the outcome of the OAuth-client construction (`clientResult`, which may
throw) and by the behaviour `b` of the constructed `AuthServer`. Returns
the event trace and where the function ends up. A throw during client
construction is caught with `authServer` still null, so no `stop` happens;
a throw from `start` is caught with `authServer` set, so `stop` is called
before `process.exit(1)`. -/
def runAuthServer (clientResult : Except String Unit) (b : AuthServerBehavior) :
    List OrchEvent × OrchOutcome :=
  match clientResult with
  | .error e => ([.stderrWrite (authErrorMsg e), .exitCall 1], .exited 1)
  | .ok _ =>
    match b.startResult with
    | .error e =>
      ([.clientInit, .startCall true, .stderrWrite (authErrorMsg e), .stopCall, .exitCall 1],
        .exited 1)
    | .ok success =>
      if !success && !b.flagAfterStart then
        ([.clientInit, .startCall true, .stderrWrite failMsg, .exitCall 1], .exited 1)
      else if b.flagAfterStart then
        ([.clientInit, .startCall true, .stderrWrite successMsg, .exitCall 0], .exited 0)
      else
        ([.clientInit, .startCall true, .stderrWrite startedMsg, .pollStart], .waiting)

/-- The module entry (auth-server.ts lines 81-92): parse the arguments; on a
parse error the process exits before any authentication work; otherwise
`setCredentialsPath` is called when a path was parsed, and then
`runAuthServer` runs. -/
def mainEntry (args : List String) (clientResult : Except String Unit)
    (b : AuthServerBehavior) : List OrchEvent × OrchOutcome :=
  match parseAuthServerArgs args with
  | .exitWith c m => ([.stderrWrite m, .exitCall c], .exited c)
  | .ok none => runAuthServer clientResult b
  | .ok (some p) =>
    ((OrchEvent.setCredPath p) :: (runAuthServer clientResult b).1,
      (runAuthServer clientResult b).2)

/-- State of the waiting phase: whether the interval is still installed, how
many times `authServer.stop()` has been called, whether the process has
exited and with which code, and the trace of events so far. -/
structure WaitState where
  pollActive : Bool
  stopCalls : Nat
  exited : Option Nat
  trace : List OrchEvent
deriving DecidableEq

/-- The waiting phase as entered right after `runAuthServer` installs the
poll and the SIGINT handler. -/
def initialWaitState : WaitState :=
  { pollActive := true, stopCalls := 0, exited := none, trace := [] }

/-- The poll period passed to `setInterval` (auth-server.ts line 62), in
milliseconds. -/
def pollIntervalMs : Nat := 1000

/-- One firing of the interval callback (auth-server.ts lines 55-62), with
`flag` the current value of `authCompletedSuccessfully`: while the process
is alive and the interval installed, a true flag clears the interval, calls
`stop`, reports, and exits 0; otherwise nothing happens. -/
def pollTick (flag : Bool) (s : WaitState) : WaitState :=
  if s.pollActive && s.exited.isNone then
    if flag then
      { pollActive := false
        stopCalls := s.stopCalls + 1
        exited := some 0
        trace := s.trace ++ [.pollClear, .stopCall, .stderrWrite pollSuccessMsg, .exitCall 0] }
    else s
  else s

/-- The SIGINT handler (auth-server.ts lines 65-71): while the process is
alive, clear the interval, call `stop`, and exit 0. -/
def sigint (s : WaitState) : WaitState :=
  if s.exited.isNone then
    { pollActive := false
      stopCalls := s.stopCalls + 1
      exited := some 0
      trace := s.trace ++ [.pollClear, .stopCall, .exitCall 0] }
  else s

/-- Modelled from the spec: the status field of an `AuthSession` (spec
section 3); the `AuthServer` class itself is not part of this source tree. -/
inductive AuthStatus where
  | NotStarted
  | TokenAlreadyValid
  | Listening
  | ExchangePending
  | Completed
  | Failed
deriving DecidableEq

/-- Modelled from the spec: the `AuthSession` record of spec section 3. -/
structure AuthSession where
  status : AuthStatus
  boundPort : Option Nat
  completedSuccessfully : Bool
  errorDetail : Option String
deriving DecidableEq

/-- Modelled from the spec: the session as created when `start` is first
invoked. -/
def initialSession : AuthSession :=
  { status := .NotStarted, boundPort := none, completedSuccessfully := false,
    errorDetail := none }

/-- Modelled from the spec: the fixed ascending port fallback range
3000-3004 (spec sections 3 and 6). -/
def portCandidates : List Nat := [3000, 3001, 3002, 3003, 3004]

/-- Modelled from the spec: the environment `start` runs against - whether
the token store holds a valid credential, and which ports are occupied. -/
structure StartEnv where
  hasValidCredential : Bool
  busyPorts : List Nat

/-- Modelled from the spec: try each candidate port in order and return the
first that binds (spec section 4.1 step 2). -/
def tryBind (busy : List Nat) : List Nat → Option Nat
  | [] => none
  | p :: ps => if p ∈ busy then tryBind busy ps else some p

/-- Modelled from the spec: `AuthServer.start` (spec section 4.1). A second
`start` on an already-started session fails with `AlreadyStarted`; a valid
stored credential short-circuits with `TokenAlreadyValid` and a true flag
and no bind; otherwise the candidate ports are tried in order, exhaustion
gives `Failed` and `false`, a successful bind gives `Listening` and `true`. -/
def startSession (env : StartEnv) (s : AuthSession) : AuthSession × Bool :=
  if s.status ≠ .NotStarted then
    ({ s with errorDetail := some "AlreadyStarted" }, false)
  else if env.hasValidCredential then
    ({ s with status := .TokenAlreadyValid, completedSuccessfully := true }, true)
  else
    match tryBind env.busyPorts portCandidates with
    | none => ({ s with status := .Failed, completedSuccessfully := false }, false)
    | some p => ({ s with status := .Listening, boundPort := some p }, true)

/-- Modelled from the spec: one inbound request at the callback endpoint -
a redirect carrying a code, a redirect carrying a provider error, or an
unrelated request such as a favicon probe (spec section 4.2). -/
inductive CallbackReq where
  | codeReq (c : String)
  | errorReq (e : String)
  | unrelated
deriving DecidableEq

/-- Modelled from the spec: handling of one callback request (spec sections
4.2 and 4.3), with `exchangeOk` telling whether the token exchange for a
given code succeeds. Returns the new session and the number of
`exchangeCode` calls performed (0 or 1). Only a session still `Listening`
reacts to a genuine callback; a code moves it through `ExchangePending` to
`Completed` (flag set, listener closed) or `Failed`, a provider error moves
it to `Failed`; anything else, including a second genuine callback, is a
no-op. -/
def handleRequest (exchangeOk : String → Bool) (s : AuthSession) (r : CallbackReq) :
    AuthSession × Nat :=
  match r with
  | .unrelated => (s, 0)
  | .errorReq e =>
    if s.status = .Listening then
      ({ s with
          status := .Failed
          completedSuccessfully := false
          boundPort := none
          errorDetail := some e }, 0)
    else (s, 0)
  | .codeReq c =>
    if s.status = .Listening then
      if exchangeOk c then
        ({ s with status := .Completed, completedSuccessfully := true, boundPort := none }, 1)
      else
        ({ s with
            status := .Failed
            completedSuccessfully := false
            boundPort := none
            errorDetail := some "ExchangeError" }, 1)
    else (s, 0)

/-- Modelled from the spec: `AuthServer.stop` (spec section 4.1) - the
listener is released on every call, the rest of the session is untouched,
and nothing is thrown. -/
def stopSession (s : AuthSession) : AuthSession := { s with boundPort := none }

/-- Modelled from the spec: the operations that can hit a session. -/
inductive SessionOp where
  | opStart (env : StartEnv)
  | opRequest (exchangeOk : String → Bool) (r : CallbackReq)
  | opStop

/-- Modelled from the spec: applying one operation to a session. -/
def stepSession (s : AuthSession) : SessionOp → AuthSession
  | .opStart env => (startSession env s).1
  | .opRequest ex r => (handleRequest ex s r).1
  | .opStop => stopSession s

/-- Modelled from the spec: the sessions reachable from a fresh session by
any sequence of operations. -/
inductive ReachableSession : AuthSession → Prop where
  | init : ReachableSession initialSession
  | step (s : AuthSession) (op : SessionOp) :
      ReachableSession s → ReachableSession (stepSession s op)

/-- Modelled from the spec: processing a whole list of callback requests,
returning the final session and the total number of `exchangeCode` calls. -/
def processRequests (ex : String → Bool) (s : AuthSession) :
    List CallbackReq → AuthSession × Nat
  | [] => (s, 0)
  | r :: rs =>
    let p := handleRequest ex s r
    let q := processRequests ex p.1 rs
    (q.1, p.2 + q.2)

/-- The condition of claim C9 on an argument list: some occurrence of
`--credentials-file` is the last argument or is followed by an argument
starting with `--`. -/
def hasBadFlag : List String → Bool
  | [] => false
  | [a] => a = credFlag
  | a :: b :: rest =>
    (a = credFlag && strStartsWith b "--") || hasBadFlag (b :: rest)

/-- The condition of claim C6 on an argument list: some occurrence of
`--credentials-file` is followed by a value argument (one not starting
with `--`). -/
def hasFlagWithValue : List String → Bool
  | [] => false
  | [_] => false
  | a :: b :: rest =>
    (a = credFlag && !strStartsWith b "--") || hasFlagWithValue (b :: rest)

/-- An abstract shape for argument lists: either the flag together with its
value argument, or any other single argument. -/
inductive Arg where
  | flagValue (v : String)
  | other (s : String)

/-- Flattening a shape into the concrete argument list. -/
def renderArgs : List Arg → List String
  | [] => []
  | .flagValue v :: rest => credFlag :: v :: renderArgs rest
  | .other s :: rest => s :: renderArgs rest

/-- Well-formedness of a shape: every flag value avoids the `--` prefix and
every other argument is not the flag itself. -/
def chunksOk : List Arg → Bool
  | [] => true
  | .flagValue v :: rest => !strStartsWith v "--" && chunksOk rest
  | .other s :: rest => !(s = credFlag) && chunksOk rest

/-- The value of the last flag occurrence in a shape, given the value
already accumulated. -/
def lastFlagValue : List Arg → Option String → Option String
  | [], acc => acc
  | .flagValue v :: rest, _ => lastFlagValue rest (some v)
  | .other _ :: rest, acc => lastFlagValue rest acc

theorem ne_credFlag_of_no_dashdash (v : String) (h : strStartsWith v "--" = false) :
    ¬v = credFlag := by
  intro he
  rw [he] at h
  exact absurd h (by decide)

theorem parseLoop_cons_ne (a : String) (rest : List String) (acc : Option String)
    (h : ¬a = credFlag) : parseLoop (a :: rest) acc = parseLoop rest acc := by
  cases rest with
  | nil => simp [parseLoop, h]
  | cons b bs => simp [parseLoop, h]

theorem parseLoop_cons_flag (v : String) (rest2 : List String) (acc : Option String)
    (h : strStartsWith v "--" = false) :
    parseLoop (credFlag :: v :: rest2) acc = parseLoop rest2 (some v) := by
  simp [parseLoop, h]

theorem hasBadFlag_cons_ne (b : String) (rest : List String) (h : ¬b = credFlag) :
    hasBadFlag (b :: rest) = hasBadFlag rest := by
  cases rest with
  | nil => simp [hasBadFlag, h]
  | cons r rs => simp [hasBadFlag, h]

theorem parseLoop_badFlag (l : List String) (acc : Option String) :
    hasBadFlag l = true → parseLoop l acc = .exitWith 1 requiresValueMsg := by
  induction l, acc using parseLoop.induct with
  | case1 acc => intro h; simp [hasBadFlag] at h
  | case2 acc =>
    intro _
    have h2 : parseLoop [credFlag] acc =
        .exitWith 1 ("Option " ++ credFlag ++ " requires a value") := by simp [parseLoop]
    rw [h2]
    decide
  | case3 acc v rest2 hv =>
    intro _
    have h3 : parseLoop (credFlag :: v :: rest2) acc =
        .exitWith 1 ("Option " ++ credFlag ++ " requires a value") := by simp [parseLoop, hv]
    rw [h3]
    decide
  | case4 acc v rest2 hv ih =>
    intro h
    have hv2 : strStartsWith v "--" = false := by simpa using hv
    rw [parseLoop_cons_flag v rest2 acc hv2]
    apply ih
    have hb : hasBadFlag (v :: rest2) = true := by
      simpa [hasBadFlag, hv2] using h
    rwa [hasBadFlag_cons_ne v rest2 (ne_credFlag_of_no_dashdash v hv2)] at hb
  | case5 a rest acc ha ih =>
    intro h
    rw [parseLoop_cons_ne a rest acc ha]
    exact ih (by rwa [hasBadFlag_cons_ne a rest ha] at h)

theorem parseLoop_ok_no_dashdash (l : List String) (acc : Option String) :
    (∀ w, acc = some w → strStartsWith w "--" = false) →
    ∀ v, parseLoop l acc = .ok (some v) → strStartsWith v "--" = false := by
  induction l, acc using parseLoop.induct with
  | case1 acc =>
    intro hacc v hv
    simp only [parseLoop, ParseResult.ok.injEq] at hv
    exact hacc v hv
  | case2 acc =>
    intro hacc v hv
    simp [parseLoop] at hv
  | case3 acc v rest2 hsv =>
    intro hacc w hw
    simp [parseLoop, hsv] at hw
  | case4 acc v rest2 hsv ih =>
    intro hacc w hw
    have hv2 : strStartsWith v "--" = false := by simpa using hsv
    rw [parseLoop_cons_flag v rest2 acc hv2] at hw
    exact ih (fun u hu => by rw [← Option.some.inj hu]; exact hv2) w hw
  | case5 a rest acc ha ih =>
    intro hacc w hw
    rw [parseLoop_cons_ne a rest acc ha] at hw
    exact ih hacc w hw

theorem parseLoop_no_flag (args : List String) (acc : Option String)
    (h : ∀ a ∈ args, ¬a = credFlag) : parseLoop args acc = .ok acc := by
  induction args with
  | nil => rfl
  | cons a rest ih =>
    rw [parseLoop_cons_ne a rest acc (h a (by simp))]
    exact ih (fun x hx => h x (by simp [hx]))

theorem parseLoop_render (l : List Arg) :
    ∀ acc, chunksOk l = true → parseLoop (renderArgs l) acc = .ok (lastFlagValue l acc) := by
  induction l with
  | nil => intro acc _; rfl
  | cons a rest ih =>
    intro acc h
    cases a with
    | flagValue v =>
      simp only [chunksOk, Bool.and_eq_true, Bool.not_eq_true'] at h
      simp only [renderArgs, lastFlagValue]
      rw [parseLoop_cons_flag v (renderArgs rest) acc h.1]
      exact ih (some v) h.2
    | other s =>
      simp only [chunksOk, Bool.and_eq_true, Bool.not_eq_true', decide_eq_false_iff_not] at h
      simp only [renderArgs, lastFlagValue]
      rw [parseLoop_cons_ne s (renderArgs rest) acc h.1]
      exact ih acc h.2

def SessionInv (s : AuthSession) : Prop :=
  s.completedSuccessfully = true →
    s.status = AuthStatus.Completed ∨ s.status = AuthStatus.TokenAlreadyValid

theorem handleRequest_nonListening (ex : String → Bool) (s : AuthSession) (r : CallbackReq)
    (h : s.status ≠ .Listening) : handleRequest ex s r = (s, 0) := by
  cases r <;> simp [handleRequest, h]

theorem processRequests_nonListening (ex : String → Bool) (s : AuthSession)
    (h : s.status ≠ .Listening) : ∀ rs, processRequests ex s rs = (s, 0) := by
  intro rs
  induction rs with
  | nil => rfl
  | cons r rs ih => simp [processRequests, handleRequest_nonListening ex s r h, ih]

theorem processRequests_le_one (ex : String → Bool) :
    ∀ (rs : List CallbackReq) (s : AuthSession), (processRequests ex s rs).2 ≤ 1 := by
  intro rs
  induction rs with
  | nil => intro s; simp [processRequests]
  | cons r rs ih =>
    intro s
    by_cases hs : s.status = AuthStatus.Listening
    · cases r with
      | unrelated =>
        simpa [processRequests, handleRequest] using ih s
      | errorReq e =>
        simpa [processRequests, handleRequest, hs] using ih _
      | codeReq c =>
        by_cases hex : ex c = true
        · simp [processRequests, handleRequest, hs, hex]
          rw [(processRequests_nonListening ex _ (by simp) rs)]
        · simp [processRequests, handleRequest, hs, hex]
          rw [(processRequests_nonListening ex _ (by simp) rs)]
    · simp [processRequests, handleRequest_nonListening ex s r hs,
        processRequests_nonListening ex s hs rs]

theorem sessionInv_initial : SessionInv initialSession := by
  intro h
  simp [initialSession] at h

theorem sessionInv_step (s : AuthSession) (op : SessionOp) (h : SessionInv s) :
    SessionInv (stepSession s op) := by
  cases op with
  | opStart env =>
    simp only [stepSession, startSession]
    by_cases h1 : s.status = AuthStatus.NotStarted
    · rw [if_neg (by simp [h1])]
      by_cases h2 : env.hasValidCredential = true
      · rw [if_pos h2]
        intro _
        right
        rfl
      · rw [if_neg h2]
        cases htb : tryBind env.busyPorts portCandidates with
        | none => intro hf; simp at hf
        | some p =>
          intro hf
          simp only at hf
          rcases h hf with hc | hc <;> rw [h1] at hc <;> exact absurd hc (by simp)
    · rw [if_pos h1]
      intro hf
      exact h hf
  | opRequest ex r =>
    by_cases hs : s.status = AuthStatus.Listening
    · have hflag : s.completedSuccessfully = false := by
        cases hc : s.completedSuccessfully with
        | false => rfl
        | true => rcases h hc with h1 | h1 <;> rw [hs] at h1 <;> exact absurd h1 (by simp)
      cases r with
      | unrelated => simpa [stepSession, handleRequest] using h
      | errorReq e =>
        simp only [stepSession, handleRequest, hs, if_pos rfl]
        intro hf
        simp at hf
      | codeReq c =>
        by_cases hex : ex c = true
        · simp only [stepSession, handleRequest, hs, if_pos rfl, hex, if_true]
          intro _
          left
          rfl
        · simp only [stepSession, handleRequest, hs, if_pos rfl, hex]
          intro hf
          simp at hf
    · rw [stepSession, handleRequest_nonListening ex s r hs]
      exact h
  | opStop =>
    intro hf
    simp only [stepSession, stopSession] at hf ⊢
    exact h hf

theorem flag_mono_step (s : AuthSession) (op : SessionOp) (hinv : SessionInv s)
    (h : s.completedSuccessfully = true) :
    (stepSession s op).completedSuccessfully = true := by
  have hst := hinv h
  have hne : s.status ≠ AuthStatus.NotStarted := by
    rcases hst with h1 | h1 <;> rw [h1] <;> simp
  have hnl : s.status ≠ AuthStatus.Listening := by
    rcases hst with h1 | h1 <;> rw [h1] <;> simp
  cases op with
  | opStart env =>
    simp only [stepSession, startSession]
    rw [if_pos hne]
    exact h
  | opRequest ex r =>
    rw [stepSession, handleRequest_nonListening ex s r hnl]
    exact h
  | opStop => simpa [stepSession, stopSession] using h

theorem sessionInv_reachable (s : AuthSession) (h : ReachableSession s) : SessionInv s := by
  induction h with
  | init => exact sessionInv_initial
  | step s op _ ih => exact sessionInv_step s op ih

/-- Claim C1: the orchestrator exits 0 when authentication succeeds (flag true
right after start, or observed later by the poll) and exits 1 when start
returns false with the flag false or when construction or start throws. -/
theorem auth_c1 (e : String) (flagA : Bool) (success : Bool) (s : WaitState) :
    ((runAuthServer (Except.error e)
        { startResult := Except.ok success, flagAfterStart := flagA }).2 =
      OrchOutcome.exited 1) ∧
    ((runAuthServer (Except.ok ())
        { startResult := Except.error e, flagAfterStart := flagA }).2 =
      OrchOutcome.exited 1) ∧
    ((runAuthServer (Except.ok ())
        { startResult := Except.ok false, flagAfterStart := false }).2 =
      OrchOutcome.exited 1) ∧
    (flagA = true →
      (runAuthServer (Except.ok ())
          { startResult := Except.ok success, flagAfterStart := flagA }).2 =
        OrchOutcome.exited 0) ∧
    (s.exited = none → s.pollActive = true →
      (pollTick true s).exited = some 0) := by
  refine ⟨rfl, rfl, rfl, ?_, ?_⟩
  · intro hf
    subst hf
    cases success <;> rfl
  · intro h1 h2
    simp [pollTick, h1, h2]

/-- Claim C1 witness at concrete inputs. -/
theorem auth_c1_witness :
    (runAuthServer (Except.ok ())
        { startResult := Except.ok true, flagAfterStart := true }).2 =
      OrchOutcome.exited 0 ∧
    (pollTick true initialWaitState).exited = some 0 :=
  ⟨(auth_c1 "e" true true initialWaitState).2.2.2.1 rfl,
    (auth_c1 "e" true true initialWaitState).2.2.2.2 rfl rfl⟩

/-- Claim C2: a SIGINT while waiting clears the poll, calls stop exactly once,
and exits 0; once exited, further signals and ticks change nothing. -/
theorem auth_c2 (s : WaitState) (h : s.exited = none) :
    (sigint s).pollActive = false ∧
    (sigint s).stopCalls = s.stopCalls + 1 ∧
    (sigint s).exited = some 0 ∧
    (sigint s).trace = s.trace ++
      [OrchEvent.pollClear, OrchEvent.stopCall, OrchEvent.exitCall 0] ∧
    sigint (sigint s) = sigint s ∧
    (∀ f, pollTick f (sigint s) = sigint s) := by
  refine ⟨by simp [sigint, h], by simp [sigint, h], by simp [sigint, h],
    by simp [sigint, h], by simp [sigint, h], fun f => by simp [sigint, pollTick, h]⟩

/-- Claim C2 witness at the initial waiting state. -/
theorem auth_c2_witness :
    (sigint initialWaitState).stopCalls = initialWaitState.stopCalls + 1 ∧
    (sigint initialWaitState).exited = some 0 :=
  ⟨(auth_c2 initialWaitState rfl).2.1, (auth_c2 initialWaitState rfl).2.2.1⟩

/-- Claim C3: after a start that returns true without completion the
orchestrator is waiting with the poll installed; the poll interval is 1000 ms;
a tick with the flag false changes nothing, and a tick that observes the flag
true clears the poll, calls stop, and only then exits 0. -/
theorem auth_c3 (s : WaitState) (h1 : s.exited = none) (h2 : s.pollActive = true) :
    runAuthServer (Except.ok ()) { startResult := Except.ok true, flagAfterStart := false } =
      ([OrchEvent.clientInit, OrchEvent.startCall true, OrchEvent.stderrWrite startedMsg,
        OrchEvent.pollStart], OrchOutcome.waiting) ∧
    pollIntervalMs = 1000 ∧
    pollTick false s = s ∧
    (pollTick true s).pollActive = false ∧
    (pollTick true s).stopCalls = s.stopCalls + 1 ∧
    (pollTick true s).exited = some 0 ∧
    (pollTick true s).trace = s.trace ++
      [OrchEvent.pollClear, OrchEvent.stopCall, OrchEvent.stderrWrite pollSuccessMsg,
        OrchEvent.exitCall 0] := by
  refine ⟨rfl, rfl, by simp [pollTick, h1, h2], by simp [pollTick, h1, h2],
    by simp [pollTick, h1, h2], by simp [pollTick, h1, h2], by simp [pollTick, h1, h2]⟩

/-- Claim C3 witness at the initial waiting state. -/
theorem auth_c3_witness :
    pollTick false initialWaitState = initialWaitState ∧
    (pollTick true initialWaitState).exited = some 0 :=
  ⟨(auth_c3 initialWaitState rfl rfl).2.2.1,
    (auth_c3 initialWaitState rfl rfl).2.2.2.2.2.1⟩

/-- Claim C4: with no valid credential and every candidate port occupied,
start returns false with the flag false, and the orchestrator then writes the
failure message, which names the 3000-3004 range, and exits 1. -/
theorem auth_c4 :
    (startSession { hasValidCredential := false, busyPorts := portCandidates }
        initialSession).2 = false ∧
    (startSession { hasValidCredential := false, busyPorts := portCandidates }
        initialSession).1.completedSuccessfully = false ∧
    (startSession { hasValidCredential := false, busyPorts := portCandidates }
        initialSession).1.status = AuthStatus.Failed ∧
    runAuthServer (Except.ok ()) { startResult := Except.ok false, flagAfterStart := false } =
      ([OrchEvent.clientInit, OrchEvent.startCall true, OrchEvent.stderrWrite failMsg,
        OrchEvent.exitCall 1], OrchOutcome.exited 1) ∧
    failMsg = "Authentication failed. Could not start server or validate existing tokens. Check port availability (" ++ "3000-3004" ++ ") and try again.\n" :=
  ⟨by decide, by decide, by decide, rfl, by decide⟩

/-- Claim C5: with a valid stored credential, start(true) returns true with
the flag set, no port bound, and status TokenAlreadyValid, whatever ports are
busy; the orchestrator then reports success and exits 0 without installing
the poll. -/
theorem auth_c5 (busy : List Nat) :
    (startSession { hasValidCredential := true, busyPorts := busy } initialSession).2 = true ∧
    (startSession { hasValidCredential := true, busyPorts := busy }
        initialSession).1.completedSuccessfully = true ∧
    (startSession { hasValidCredential := true, busyPorts := busy }
        initialSession).1.status = AuthStatus.TokenAlreadyValid ∧
    (startSession { hasValidCredential := true, busyPorts := busy }
        initialSession).1.boundPort = none ∧
    runAuthServer (Except.ok ()) { startResult := Except.ok true, flagAfterStart := true } =
      ([OrchEvent.clientInit, OrchEvent.startCall true, OrchEvent.stderrWrite successMsg,
        OrchEvent.exitCall 0], OrchOutcome.exited 0) ∧
    OrchEvent.pollStart ∉
      (runAuthServer (Except.ok ())
        { startResult := Except.ok true, flagAfterStart := true }).1 :=
  ⟨rfl, rfl, rfl, rfl, rfl, by decide⟩

/-- Claim C6 counterexample: the list [--credentials-file, a,
--credentials-file] does contain the flag followed by a value argument, yet
the orchestrator parses no value and exits 1 before any authentication work,
so no setCredentialsPath call happens. -/
theorem auth_c6_counterexample :
    hasFlagWithValue [credFlag, "a", credFlag] = true ∧
    mainEntry [credFlag, "a", credFlag] (Except.ok ())
        { startResult := Except.ok true, flagAfterStart := true } =
      ([OrchEvent.stderrWrite requiresValueMsg, OrchEvent.exitCall 1], OrchOutcome.exited 1) :=
  ⟨by decide, by decide⟩

/-- Claim C6 (amended): for every argument list in which each occurrence of
--credentials-file is followed by a value argument not starting with --, and
at least one occurrence exists, the orchestrator parses the value of the last
occurrence and passes it to setCredentialsPath before any other step, in
particular before constructing the OAuth client and the AuthServer. -/
theorem auth_c6_amended (l : List Arg) (clientResult : Except String Unit)
    (b : AuthServerBehavior) (v : String) (h : chunksOk l = true)
    (hv : lastFlagValue l none = some v) :
    mainEntry (renderArgs l) clientResult b =
      (OrchEvent.setCredPath v :: (runAuthServer clientResult b).1,
        (runAuthServer clientResult b).2) := by
  unfold mainEntry parseAuthServerArgs
  rw [parseLoop_render l none h, hv]

/-- Claim C6 amended witness at a concrete argument list. -/
theorem auth_c6_amended_witness :
    mainEntry (renderArgs [Arg.flagValue "p"]) (Except.ok ())
        { startResult := Except.ok true, flagAfterStart := true } =
      (OrchEvent.setCredPath "p" ::
          (runAuthServer (Except.ok ())
            { startResult := Except.ok true, flagAfterStart := true }).1,
        (runAuthServer (Except.ok ())
          { startResult := Except.ok true, flagAfterStart := true }).2) :=
  auth_c6_amended [Arg.flagValue "p"] (Except.ok ())
    { startResult := Except.ok true, flagAfterStart := true } "p" (by decide) (by decide)

/-- Claim C7: over any list of callback requests the exchange runs at most
once per session, and on a session no longer Listening every request,
including a second genuine callback, is a no-op that runs no exchange. -/
theorem auth_c7 (ex : String → Bool) (s : AuthSession) (rs : List CallbackReq) :
    (processRequests ex s rs).2 ≤ 1 ∧
    (∀ r, s.status ≠ AuthStatus.Listening → handleRequest ex s r = (s, 0)) :=
  ⟨processRequests_le_one ex rs s, fun r h => handleRequest_nonListening ex s r h⟩

/-- Claim C7 witness: two valid-code callbacks on a listening session yield
at most one exchange, and a genuine callback on a completed session is a
no-op. -/
theorem auth_c7_witness :
    (processRequests (fun _ => true)
        { status := AuthStatus.Listening, boundPort := some 3000,
          completedSuccessfully := false, errorDetail := none }
        [CallbackReq.codeReq "A", CallbackReq.codeReq "B"]).2 ≤ 1 ∧
    handleRequest (fun _ => true)
        { status := AuthStatus.Completed, boundPort := none,
          completedSuccessfully := true, errorDetail := none }
        (CallbackReq.codeReq "B") =
      ({ status := AuthStatus.Completed, boundPort := none,
          completedSuccessfully := true, errorDetail := none }, 0) :=
  ⟨(auth_c7 (fun _ => true)
      { status := AuthStatus.Listening, boundPort := some 3000,
        completedSuccessfully := false, errorDetail := none }
      [CallbackReq.codeReq "A", CallbackReq.codeReq "B"]).1,
    (auth_c7 (fun _ => true)
      { status := AuthStatus.Completed, boundPort := none,
        completedSuccessfully := true, errorDetail := none } []).2
      (CallbackReq.codeReq "B") (by decide)⟩

/-- Claim C8 counterexample: the session reached by a start with a valid
stored credential has the flag true while its status is TokenAlreadyValid,
not Completed, so the flag does not imply status Completed. -/
theorem auth_c8_counterexample :
    ReachableSession (stepSession initialSession
      (SessionOp.opStart { hasValidCredential := true, busyPorts := [] })) ∧
    (stepSession initialSession
      (SessionOp.opStart { hasValidCredential := true, busyPorts := [] })).completedSuccessfully
      = true ∧
    (stepSession initialSession
      (SessionOp.opStart { hasValidCredential := true, busyPorts := [] })).status ≠
      AuthStatus.Completed :=
  ⟨ReachableSession.step _ _ ReachableSession.init, by decide, by decide⟩

/-- Claim C8 (amended): in every reachable session the flag implies status
Completed or TokenAlreadyValid, and the flag is monotonic: no operation
resets a true flag to false. -/
theorem auth_c8_amended (s : AuthSession) (h : ReachableSession s) :
    (s.completedSuccessfully = true →
      s.status = AuthStatus.Completed ∨ s.status = AuthStatus.TokenAlreadyValid) ∧
    (∀ op, s.completedSuccessfully = true →
      (stepSession s op).completedSuccessfully = true) := by
  have hinv := sessionInv_reachable s h
  exact ⟨hinv, fun op hf => flag_mono_step s op hinv hf⟩

/-- Claim C8 amended witness at the session reached by a short-circuit start. -/
theorem auth_c8_amended_witness :
    ((stepSession initialSession
        (SessionOp.opStart { hasValidCredential := true, busyPorts := [] })).status =
        AuthStatus.Completed ∨
      (stepSession initialSession
        (SessionOp.opStart { hasValidCredential := true, busyPorts := [] })).status =
        AuthStatus.TokenAlreadyValid) ∧
    (stepSession (stepSession initialSession
        (SessionOp.opStart { hasValidCredential := true, busyPorts := [] }))
        SessionOp.opStop).completedSuccessfully = true :=
  ⟨(auth_c8_amended _ (ReachableSession.step _ _ ReachableSession.init)).1 (by decide),
    (auth_c8_amended _ (ReachableSession.step _ _ ReachableSession.init)).2
      SessionOp.opStop (by decide)⟩

/-- Claim C9: whenever some occurrence of --credentials-file is the last
argument or is followed by an argument starting with --, the process prints
the requires-a-value message and exits 1 with no authentication event; and a
path accepted by the parser never starts with --. -/
theorem auth_c9 (args : List String) (clientResult : Except String Unit)
    (b : AuthServerBehavior) (v : String) :
    (hasBadFlag args = true →
      mainEntry args clientResult b =
        ([OrchEvent.stderrWrite requiresValueMsg, OrchEvent.exitCall 1],
          OrchOutcome.exited 1)) ∧
    (parseAuthServerArgs args = ParseResult.ok (some v) →
      strStartsWith v "--" = false) := by
  constructor
  · intro h
    unfold mainEntry parseAuthServerArgs
    rw [parseLoop_badFlag args none h]
  · intro h
    exact parseLoop_ok_no_dashdash args none (fun w hw => Option.noConfusion hw) v h

/-- Claim C9 witness: a dangling flag makes the process exit 1 with the
message, and the accepted path of a well-formed list lacks the -- prefix. -/
theorem auth_c9_witness :
    mainEntry [credFlag] (Except.ok ())
        { startResult := Except.ok true, flagAfterStart := true } =
      ([OrchEvent.stderrWrite requiresValueMsg, OrchEvent.exitCall 1],
        OrchOutcome.exited 1) ∧
    strStartsWith "p" "--" = false :=
  ⟨(auth_c9 [credFlag] (Except.ok ())
      { startResult := Except.ok true, flagAfterStart := true } "p").1 (by decide),
    (auth_c9 [credFlag, "p"] (Except.ok ())
      { startResult := Except.ok true, flagAfterStart := true } "p").2 (by decide)⟩

/-- Claim C10: the parser returns the value of the last flag occurrence when
every occurrence carries a valid value, whatever other arguments surround
them, and an argument list without the flag parses to no path at all. -/
theorem auth_c10 (l : List Arg) (args : List String) (h : chunksOk l = true)
    (h2 : ∀ a ∈ args, a ≠ credFlag) :
    parseAuthServerArgs (renderArgs l) = ParseResult.ok (lastFlagValue l none) ∧
    parseAuthServerArgs args = ParseResult.ok none :=
  ⟨parseLoop_render l none h, parseLoop_no_flag args none h2⟩

/-- Claim C10 witness: the last of two flag occurrences wins, and unrelated
arguments are ignored. -/
theorem auth_c10_witness :
    parseAuthServerArgs
        (renderArgs [Arg.other "x", Arg.flagValue "a", Arg.flagValue "b", Arg.other "y"]) =
      ParseResult.ok (some "b") ∧
    parseAuthServerArgs ["x", "y"] = ParseResult.ok none := by
  have h := auth_c10 [Arg.other "x", Arg.flagValue "a", Arg.flagValue "b", Arg.other "y"]
    ["x", "y"] (by decide) (by decide)
  exact ⟨h.1.trans (by decide), h.2⟩
